import Mathlib

/-!
Shallow embedding of `src/mloggers/logger.py` (the `mloggers` logging
abstraction): the abstract `Logger` base class (message-shape validation,
level filtering, `set_level`, convenience wrappers, call-as-function sugar,
stream redirection) and the `_RedirectStream` capturing adapter.

Python values that the code inspects are modelled explicitly: a message is
modelled by the observations the code makes of it (`isinstance(message, dict)`,
`hasattr(message, "__str__")`, `callable(getattr(message, "__str__"))`),
exceptions by an `Except` error type, Python `None` and `bool` return values
by an explicit value type.
-/

/-- Modelled from the spec: the level registry (module `mloggers._log_levels`,
not present under `src/`) is "a closed, ordered set of named severities
(e.g. DEBUG, INFO, WARN, ERROR)", each with an integer `importance`
("higher = more severe"), importances "totally ordered and distinct per level".
The code's docstring in `logger.py` fixes INFO's importance at 0 and places
DEBUG strictly below INFO ("which excludes LogLevel.DEBUG" at an INFO
threshold); the spec's Scenario A places DEBUG below WARN and WARN at most
ERROR. The concrete numbers below realise that order; the color payload is
irrelevant to every claim and omitted. -/
inductive LogLevel
  | DEBUG
  | INFO
  | WARN
  | ERROR
  deriving DecidableEq, Repr

/-- Modelled from the spec: the integer importance carried by each registry
entry (`LogLevel.<L>.value["level"]` in the source). -/
def importance : LogLevel → Int
  | LogLevel.DEBUG => -1
  | LogLevel.INFO => 0
  | LogLevel.WARN => 1
  | LogLevel.ERROR => 2

/-- `DEFAULT_IMPORTANCE = LogLevel.INFO.value['level']` (logger.py line 12):
the importance assigned to anything not using the LogLevel enum. -/
def DEFAULT_IMPORTANCE : Int := importance LogLevel.INFO

/-- Python exceptions that the embedded code can surface. -/
inductive PyError
  | typeError
  | attributeError
  | other
  deriving DecidableEq, Repr

/-- Python return values of the embedded methods: a `bool` or `None`. -/
inductive PyVal
  | pyBool : Bool → PyVal
  | pyNone
  deriving DecidableEq, Repr

/-- A Python value passed as `message`, modelled by the three observations
the validation code makes of it: `isinstance(message, dict)`,
`hasattr(message, "__str__")` and `callable(getattr(message, "__str__"))`.
In CPython every object inherits `__str__` from `object`, so real values
always have `hasStr = true`; the flag is kept free so the guard can be
analysed on the full space of values the code's condition contemplates. -/
structure PyMsg where
  isDict : Bool
  hasStr : Bool
  strCallable : Bool
  deriving DecidableEq, Repr

/-- The `level` argument of `log`: a registered `LogLevel` member, a bare
string label, or `None` (`isinstance(level, LogLevel)` distinguishes the
first from the rest). -/
inductive LevelArg
  | lvl : LogLevel → LevelArg
  | strLabel : String → LevelArg
  | noneLevel
  deriving DecidableEq, Repr

/-- Whether `isinstance(level, LogLevel)` holds. -/
def LevelArg.isRegistered : LevelArg → Bool
  | LevelArg.lvl _ => true
  | _ => false

/-- Evaluation of the guard of the `raise TypeError` in `Logger.log`
(logger.py lines 58-62):

  `not isinstance(message, dict) and not hasattr(message, "__str__")
   and not callable(getattr(message, "__str__"))`

with Python's left-to-right short-circuit evaluation. When the first two
conjuncts hold (not a dict, no `__str__` attribute), evaluating the third
calls `getattr(message, "__str__")`, which itself raises `AttributeError`
(that is what `hasattr` being false means), so the condition's value never
depends on `strCallable`. -/
def shapeCondition (m : PyMsg) : Except PyError Bool :=
  if m.isDict then Except.ok false
  else if m.hasStr then Except.ok false
  else Except.error PyError.attributeError

/-- The threshold state of a `Logger` instance: the single mutable field
`self._log_level` (an integer importance). -/
structure LoggerState where
  log_level : Int
  deriving DecidableEq, Repr

/-- `Logger.__init__` (logger.py line 29):
`self._log_level = default_level.value['level'] if isinstance(default_level, LogLevel) else default_level`.
The argument is a `LogLevel` or an int. -/
inductive LevelOrInt
  | lvl : LogLevel → LevelOrInt
  | int : Int → LevelOrInt
  deriving DecidableEq, Repr

def Logger.init (default_level : LevelOrInt) : LoggerState :=
  match default_level with
  | LevelOrInt.lvl L => { log_level := importance L }
  | LevelOrInt.int n => { log_level := n }

/-- The body of the abstract `Logger.log` (logger.py lines 58-73): validate
the message shape (raising if the guard's evaluation raises, or `TypeError`
if it were ever true), then filter:

  if isinstance(level, LogLevel) and level.value['level'] < self._log_level: return False
  elif not isinstance(level, LogLevel) and DEFAULT_IMPORTANCE < self._log_level: return False
  return True

The `match` on `level` mirrors the `isinstance` dispatch: for a registered
level the second `elif` can never fire, and for an unregistered one the first
cannot, so each branch reduces to its own comparison against the threshold. -/
def Logger.log (self : LoggerState) (message : PyMsg) (level : LevelArg) :
    Except PyError PyVal :=
  match shapeCondition message with
  | Except.error e => Except.error e
  | Except.ok true => Except.error PyError.typeError
  | Except.ok false =>
    match level with
    | LevelArg.lvl L =>
        if importance L < self.log_level then Except.ok (PyVal.pyBool false)
        else Except.ok (PyVal.pyBool true)
    | _ =>
        if DEFAULT_IMPORTANCE < self.log_level then Except.ok (PyVal.pyBool false)
        else Except.ok (PyVal.pyBool true)

/-- `Logger.set_level` (logger.py line 84):
`self._log_level = level.value['level'] if isinstance(level, LogLevel) else level`. -/
def Logger.set_level (self : LoggerState) (level : LevelOrInt) : LoggerState :=
  match level with
  | LevelOrInt.lvl L => { self with log_level := importance L }
  | LevelOrInt.int n => { self with log_level := n }

/-- `Logger._call_impl` (logger.py lines 86-87): `return self.log(*args, **kwargs)`. -/
def Logger.call_impl (self : LoggerState) (message : PyMsg) (level : LevelArg) :
    Except PyError PyVal :=
  Logger.log self message level

/-- `Logger.__call__ = _call_impl` (logger.py line 89). -/
def Logger.dunderCall : LoggerState → PyMsg → LevelArg → Except PyError PyVal :=
  Logger.call_impl

/-- `Logger.info` (logger.py line 107): the statement
`self.log(message, LogLevel.INFO, *args, **kwargs)` — the call's result is
discarded and the method returns `None` (exceptions propagate). -/
def Logger.info (self : LoggerState) (message : PyMsg) : Except PyError PyVal :=
  match Logger.log self message (LevelArg.lvl LogLevel.INFO) with
  | Except.error e => Except.error e
  | Except.ok _ => Except.ok PyVal.pyNone

/-- `Logger.warn` (logger.py line 126): `self.log(message, LogLevel.WARN, ...)`,
result discarded, returns `None`. -/
def Logger.warn (self : LoggerState) (message : PyMsg) : Except PyError PyVal :=
  match Logger.log self message (LevelArg.lvl LogLevel.WARN) with
  | Except.error e => Except.error e
  | Except.ok _ => Except.ok PyVal.pyNone

/-- `warning = warn` (logger.py line 132): the alias binds the same function. -/
def Logger.warning : LoggerState → PyMsg → Except PyError PyVal :=
  Logger.warn

/-- `Logger.error` (logger.py line 151): `self.log(message, LogLevel.ERROR, ...)`,
result discarded, returns `None`. -/
def Logger.error (self : LoggerState) (message : PyMsg) : Except PyError PyVal :=
  match Logger.log self message (LevelArg.lvl LogLevel.ERROR) with
  | Except.error e => Except.error e
  | Except.ok _ => Except.ok PyVal.pyNone

/-- `Logger.debug` (logger.py line 172): `self.log(message, LogLevel.DEBUG, ...)`,
result discarded, returns `None`. -/
def Logger.debug (self : LoggerState) (message : PyMsg) : Except PyError PyVal :=
  match Logger.log self message (LevelArg.lvl LogLevel.DEBUG) with
  | Except.error e => Except.error e
  | Except.ok _ => Except.ok PyVal.pyNone

/-- The whitespace set of Python's `str.rstrip()` with no argument
(ASCII portion: space, tab, newline, carriage return, vertical tab, form feed). -/
def isPySpace (c : Char) : Bool :=
  c = ' ' || c = '\t' || c = '\n' || c = '\r' || c = '\x0b' || c = '\x0c'

/-- Python `message.rstrip()` (logger.py line 215): remove ALL trailing
whitespace characters. -/
def pyRstrip (s : String) : String :=
  String.mk ((s.data.reverse.dropWhile isPySpace).reverse)

/-- Worded from the spec, for comparison with `pyRstrip`: "strip a single
trailing line terminator (since the conventional print operation appends
one)" — remove exactly one trailing newline if present, nothing else. -/
def stripOneTerminator (s : String) : String :=
  if s.data.getLast? = some '\n' then String.mk (s.data.dropLast) else s

/-- The process-wide handle currently installed as `sys.stdout`. -/
inductive Handle
  | adapter
  | original
  | otherHandle
  deriving DecidableEq, Repr

/-- The process-wide state that `_RedirectStream.write` touches: the current
`sys.stdout` handle, how many times the true original handle
(`sys.__stdout__`) was flushed, and the text written directly to that
original handle. -/
structure RedirState where
  stdout : Handle
  origFlushes : Nat
  origWritten : List String
  deriving DecidableEq, Repr

/-- The observable outcome of one `_RedirectStream.write` call: the final
process-wide state, the `(message, level)` arguments of the calls made to
`self._logger.log` in order, and the exception the call raised, if any. -/
structure WriteOutcome where
  state : RedirState
  forwarded : List (String × LogLevel)
  raised : Option PyError
  deriving DecidableEq, Repr

/-- `_RedirectStream.write` (logger.py lines 209-221), parametrised by the
bound level `self._level` and by `logBehavior`, the outcome of the bound
logger's (concrete, subclass-implemented) `log` on a given message: `none`
for a normal return, `some e` when it raises `e`.

    custom_stdout = sys.stdout
    sys.stdout = sys.__stdout__
    message = message.rstrip()
    if message:
        self._logger.log(message, self._level)
    sys.stdout.flush()
    sys.stdout = custom_stdout

There is no `try`/`finally`: when `self._logger.log` raises, the exception
propagates at once and the two final statements (flushing the original
handle and reinstalling the saved handle) do not run. -/
def rsWrite (logBehavior : String → Option PyError) (level : LogLevel)
    (message : String) (st : RedirState) : WriteOutcome :=
  let custom_stdout := st.stdout
  let st1 : RedirState := { st with stdout := Handle.original }
  let m := pyRstrip message
  if m = "" then
    let st2 : RedirState := { st1 with origFlushes := st1.origFlushes + 1 }
    { state := { st2 with stdout := custom_stdout }, forwarded := [], raised := none }
  else
    match logBehavior m with
    | some e =>
        { state := st1, forwarded := [(m, level)], raised := some e }
    | none =>
        let st2 : RedirState := { st1 with origFlushes := st1.origFlushes + 1 }
        { state := { st2 with stdout := custom_stdout },
          forwarded := [(m, level)], raised := none }

/-- The process-wide warning-filter policy (`warnings` module). -/
inductive WarnPolicy
  | defaultPolicy
  | alwaysAll
  | otherPolicy
  deriving DecidableEq, Repr

/-- The process-wide `warnings.showwarning` hook. -/
inductive WarnHook
  | loadTimeDefault
  | loggerForward
  | otherHook
  deriving DecidableEq, Repr

/-- The process-wide handles `sys.stdout` / `sys.stderr` as the redirection
code manipulates them: `dunderStdout` / `dunderStderr` are the load-time
originals `sys.__stdout__` / `sys.__stderr__`, `redirectOut` / `redirectErr`
the capturing adapters installed by `redirect_streams`. -/
inductive SysHandle
  | dunderStdout
  | dunderStderr
  | redirectOut
  | redirectErr
  | otherSysHandle
  deriving DecidableEq, Repr

/-- The process-wide state touched by `redirect_streams` / `reset_streams`. -/
structure SysState where
  stdout : SysHandle
  stderr : SysHandle
  warnPolicy : WarnPolicy
  showwarning : WarnHook
  deriving DecidableEq, Repr

/-- `WARNINGS_DEFAULT = warnings.showwarning` (logger.py line 13): the
warning-display hook captured once at module load time. -/
def WARNINGS_DEFAULT : WarnHook := WarnHook.loadTimeDefault

/-- `Logger.redirect_streams` (logger.py lines 175-186): install the two
capturing adapters, enable all warnings, and install the logger-forwarding
warning hook (the one-time advisory emission does not change this state). -/
def Logger.redirect_streams (s : SysState) : SysState :=
  { s with
    stdout := SysHandle.redirectOut
    stderr := SysHandle.redirectErr
    warnPolicy := WarnPolicy.alwaysAll
    showwarning := WarnHook.loggerForward }

/-- `Logger.reset_streams` (logger.py lines 188-197):

    sys.stdout = sys.__stdout__
    sys.stderr = sys.__stderr__
    warnings.resetwarnings()
    warnings.showwarning = WARNINGS_DEFAULT
-/
def Logger.reset_streams (s : SysState) : SysState :=
  { s with
    stdout := SysHandle.dunderStdout
    stderr := SysHandle.dunderStderr
    warnPolicy := WarnPolicy.defaultPolicy
    showwarning := WARNINGS_DEFAULT }

deriving instance DecidableEq for Except

/-- Worded from the spec, for comparison in claim C6: a Python method that
executes a call and discards its result returns `None` (exceptions propagate). -/
def discardReturn (r : Except PyError PyVal) : Except PyError PyVal :=
  match r with
  | Except.error e => Except.error e
  | Except.ok _ => Except.ok PyVal.pyNone

/-- A message whose shape check passes cleanly: every dict, and every value
carrying a `__str__` attribute, makes the guard evaluate to `False`. -/
lemma shapeCondition_ok (m : PyMsg) (h : m.isDict = true ∨ m.hasStr = true) :
    shapeCondition m = Except.ok false := by
  unfold shapeCondition
  rcases h with h | h
  · simp [h]
  · by_cases hd : m.isDict <;> simp [hd, h]

/-- Claim C1: for every Logger with threshold t and every registered Level L,
the base log(message, L) returns the falsy suppressed signal (False) exactly
when importance(L) is strictly less than t, and the distinct truthy
handed-off signal (True) otherwise; at importance equal to t the message is
never suppressed (the boundary is inclusive). -/
theorem c1_registered_level_boundary (t : Int) (L : LogLevel) (m : PyMsg)
    (h : m.isDict = true ∨ m.hasStr = true) :
    (Logger.log ⟨t⟩ m (LevelArg.lvl L) = Except.ok (PyVal.pyBool false) ↔ importance L < t)
    ∧ (Logger.log ⟨t⟩ m (LevelArg.lvl L) = Except.ok (PyVal.pyBool true) ↔ ¬ importance L < t) := by
  have hs := shapeCondition_ok m h
  unfold Logger.log
  rw [hs]
  constructor <;> (simp only []; split <;> simp_all)

/-- Witness for C1: threshold 0, level INFO (importance 0, equal to the
threshold): the message is handed off, not suppressed. -/
theorem c1_witness :
    Logger.log ⟨0⟩ ⟨false, true, true⟩ (LevelArg.lvl LogLevel.INFO)
      = Except.ok (PyVal.pyBool true) :=
  (c1_registered_level_boundary 0 LogLevel.INFO ⟨false, true, true⟩ (Or.inr rfl)).2.mpr
    (by decide)

/-- Claim C2: for every threshold t and every level argument that is not a
registered Level (None or a bare string), the base log filters with the fixed
DEFAULT_IMPORTANCE, which equals INFO's importance: it returns the suppressed
signal exactly when DEFAULT_IMPORTANCE < t, so an unregistered label can
never be filtered with a priority above INFO-equivalent. -/
theorem c2_unregistered_default_importance (t : Int) (m : PyMsg) (lv : LevelArg)
    (hm : m.isDict = true ∨ m.hasStr = true) (hlv : lv.isRegistered = false) :
    (Logger.log ⟨t⟩ m lv = Except.ok (PyVal.pyBool false) ↔ DEFAULT_IMPORTANCE < t)
    ∧ (Logger.log ⟨t⟩ m lv = Except.ok (PyVal.pyBool true) ↔ ¬ DEFAULT_IMPORTANCE < t)
    ∧ DEFAULT_IMPORTANCE = importance LogLevel.INFO := by
  have hs := shapeCondition_ok m hm
  refine ⟨?_, ?_, rfl⟩ <;>
    · unfold Logger.log
      rw [hs]
      cases lv with
      | lvl L => simp [LevelArg.isRegistered] at hlv
      | strLabel s => simp only []; split <;> simp_all
      | noneLevel => simp only []; split <;> simp_all

/-- Witness for C2: threshold 1, level None: DEFAULT_IMPORTANCE = 0 < 1, so
the message is suppressed. -/
theorem c2_witness :
    Logger.log ⟨1⟩ ⟨false, true, true⟩ LevelArg.noneLevel
      = Except.ok (PyVal.pyBool false) :=
  (c2_unregistered_default_importance 1 ⟨false, true, true⟩ LevelArg.noneLevel
    (Or.inr rfl) rfl).1.mpr (by decide)

/-- Claim C3 (evaluation at the failing input): when the forward-to-logger
step raises, `_RedirectStream.write` propagates the exception with the
process-wide standard-output handle still swapped to the true original — the
capturing adapter is NOT reinstalled and the original handle is not flushed,
because the restore/flush/reinstall statements are not protected by any
guaranteed-release construct. Starting from the adapter installed as
standard output, a write of "hello" whose `log` call raises ends with
`sys.stdout` equal to the original handle, not the adapter. -/
theorem c3_raise_leaves_stdout_swapped :
    (rsWrite (fun _ => some PyError.other) LogLevel.INFO "hello"
        ⟨Handle.adapter, 0, []⟩).raised = some PyError.other
    ∧ (rsWrite (fun _ => some PyError.other) LogLevel.INFO "hello"
        ⟨Handle.adapter, 0, []⟩).state.stdout = Handle.original
    ∧ (rsWrite (fun _ => some PyError.other) LogLevel.INFO "hello"
        ⟨Handle.adapter, 0, []⟩).state.stdout ≠ Handle.adapter
    ∧ (rsWrite (fun _ => some PyError.other) LogLevel.INFO "hello"
        ⟨Handle.adapter, 0, []⟩).state.origFlushes = 0 := by
  decide

/-- Counterexample to claim C4 as stated: on the chunk "hello\n\n" the code
forwards "hello" — `rstrip()` removes BOTH trailing line terminators (and any
other trailing whitespace) — while stripping exactly one trailing line
terminator would forward "hello\n". -/
theorem c4_counterexample :
    (rsWrite (fun _ => none) LogLevel.INFO "hello\n\n"
        ⟨Handle.adapter, 0, []⟩).forwarded = [("hello", LogLevel.INFO)]
    ∧ stripOneTerminator "hello\n\n" = "hello\n"
    ∧ ("hello" : String) ≠ "hello\n" := by
  decide

/-- Claim C4 as amended: for every chunk received by the capturing adapter's
write (with a non-raising bound logger), ALL trailing whitespace is stripped
(Python `rstrip()`), the remainder is forwarded exactly once to the bound
Logger at the bound level when non-empty and not at all when empty, and
nothing is ever written directly to the original destination. In particular
a chunk "hello\n" yields exactly one `log("hello", INFO)` on a
stdout-bound adapter. -/
theorem c4_write_forwards_rstripped (level : LogLevel) (message : String)
    (st : RedirState) :
    (rsWrite (fun _ => none) level message st).forwarded
      = (if pyRstrip message = "" then [] else [(pyRstrip message, level)])
    ∧ (rsWrite (fun _ => none) level message st).state.origWritten = st.origWritten
    ∧ (rsWrite (fun _ => none) level message st).raised = none := by
  unfold rsWrite
  split <;> simp_all

/-- Claim C5 (evaluation at the failing input): the shape-validation guard can
never raise the type-mismatch error. For a hypothetical message with no
`__str__` attribute the guard's own evaluation raises `AttributeError` (from
`getattr`) before the `raise TypeError` statement is reached, and for every
ordinary value (which carries `__str__`) the guard is false and nothing is
raised at all. -/
theorem c5_type_error_never_raised :
    Logger.log ⟨0⟩ ⟨false, false, false⟩ (LevelArg.lvl LogLevel.INFO)
      = Except.error PyError.attributeError
    ∧ Logger.log ⟨0⟩ ⟨false, false, false⟩ (LevelArg.lvl LogLevel.INFO)
      ≠ Except.error PyError.typeError
    ∧ Logger.log ⟨0⟩ ⟨false, true, true⟩ (LevelArg.lvl LogLevel.INFO)
      = Except.ok (PyVal.pyBool true) := by
  decide

/-- Counterexample to claim C6 as stated: at threshold 0 with a valid message,
`info` returns `None` while `log(message, INFO)` returns the truthy
handed-off signal `True` — the wrapper does not return the
suppressed/handed-off signal. -/
theorem c6_counterexample :
    Logger.info ⟨0⟩ ⟨false, true, true⟩ = Except.ok PyVal.pyNone
    ∧ Logger.log ⟨0⟩ ⟨false, true, true⟩ (LevelArg.lvl LogLevel.INFO)
      = Except.ok (PyVal.pyBool true)
    ∧ Logger.info ⟨0⟩ ⟨false, true, true⟩
      ≠ Logger.log ⟨0⟩ ⟨false, true, true⟩ (LevelArg.lvl LogLevel.INFO) := by
  decide

/-- Claim C6 as amended: each convenience wrapper calls the log primitive
with its fixed level as second argument — the same validation and filtering,
with any exception propagated — but discards log's return value and returns
`None` instead of the suppressed/handed-off signal; `warning` is an alias
of `warn`. -/
theorem c6_wrappers_fixed_level (st : LoggerState) (m : PyMsg) :
    Logger.info st m = discardReturn (Logger.log st m (LevelArg.lvl LogLevel.INFO))
    ∧ Logger.warn st m = discardReturn (Logger.log st m (LevelArg.lvl LogLevel.WARN))
    ∧ Logger.error st m = discardReturn (Logger.log st m (LevelArg.lvl LogLevel.ERROR))
    ∧ Logger.debug st m = discardReturn (Logger.log st m (LevelArg.lvl LogLevel.DEBUG))
    ∧ Logger.warning = Logger.warn :=
  ⟨rfl, rfl, rfl, rfl, rfl⟩

/-- Claim C7: from ANY process-wide state — whatever was installed before or
during redirection — reset_streams installs the exact load-time handles
`sys.__stdout__` / `sys.__stderr__` (a global reset, not a stack pop), the
default diagnostic-warning filtering policy, and the warning-display hook
captured at module load time (`WARNINGS_DEFAULT`); applying it twice leaves
state identical to applying it once, and resetting after any number of
redirections gives the same state. -/
theorem c7_reset_streams_global_and_idempotent (s : SysState) :
    Logger.reset_streams s
      = { stdout := SysHandle.dunderStdout, stderr := SysHandle.dunderStderr,
          warnPolicy := WarnPolicy.defaultPolicy, showwarning := WARNINGS_DEFAULT }
    ∧ Logger.reset_streams (Logger.reset_streams s) = Logger.reset_streams s
    ∧ Logger.reset_streams (Logger.redirect_streams s) = Logger.reset_streams s :=
  ⟨rfl, rfl, rfl⟩

/-- Claim C8: set_level replaces the threshold and nothing else — a
registered Level sets it to that level's importance, a raw integer sets it to
exactly that integer — and subsequent filtering through log uses the new
threshold. -/
theorem c8_set_level_replaces_threshold (st : LoggerState) (L : LogLevel) (n : Int)
    (m : PyMsg) (lv : LevelArg) :
    Logger.set_level st (LevelOrInt.lvl L) = ⟨importance L⟩
    ∧ Logger.set_level st (LevelOrInt.int n) = ⟨n⟩
    ∧ Logger.log (Logger.set_level st (LevelOrInt.lvl L)) m lv
      = Logger.log ⟨importance L⟩ m lv
    ∧ Logger.log (Logger.set_level st (LevelOrInt.int n)) m lv
      = Logger.log ⟨n⟩ m lv :=
  ⟨rfl, rfl, rfl, rfl⟩

/-- Claim C9: invoking a Logger instance directly as a function
(`__call__ = _call_impl`, which returns `self.log(*args, **kwargs)`) produces
the same result as invoking log with the same arguments. -/
theorem c9_call_is_log (st : LoggerState) (m : PyMsg) (lv : LevelArg) :
    Logger.dunderCall st m lv = Logger.log st m lv :=
  rfl

/-- Claim C10: the shape-validation branch of the base log never fires for
any value carrying a `__str__` attribute — which every value in the language
does — so the guard evaluates to False, no type-mismatch error is raised, and
every such message proceeds to the filtering decision, log returning one of
the two boolean signals. -/
theorem c10_type_error_branch_unreachable (st : LoggerState) (m : PyMsg) (lv : LevelArg)
    (h : m.hasStr = true) :
    shapeCondition m = Except.ok false
    ∧ ∃ b : Bool, Logger.log st m lv = Except.ok (PyVal.pyBool b) := by
  have hs := shapeCondition_ok m (Or.inr h)
  refine ⟨hs, ?_⟩
  unfold Logger.log
  rw [hs]
  cases lv <;> (simp only []; split <;> exact ⟨_, rfl⟩)

/-- Witness for C10: a plain non-dict value with `__str__` (as all values
have), logged with level None at threshold 0: accepted and filtered. -/
theorem c10_witness :
    shapeCondition ⟨false, true, true⟩ = Except.ok false
    ∧ ∃ b : Bool, Logger.log ⟨0⟩ ⟨false, true, true⟩ LevelArg.noneLevel
        = Except.ok (PyVal.pyBool b) :=
  c10_type_error_branch_unreachable ⟨0⟩ ⟨false, true, true⟩ LevelArg.noneLevel rfl
